import Mathlib

set_option maxRecDepth 8000

/-!
Shallow embedding of the PersonaSay response-quality subsystem
(`src/backend/app/evaluators.py` and `src/backend/app/response_validator.py`).

Conventions of the embedding:
* Python strings are Lean `String`s, inspected through `String.data : List Char`.
* Python floats are modelled as exact rationals `ℚ`; every score reachable in
  this code is a rational with a small denominator, far away from any region
  where binary floating point and exact arithmetic could disagree on the
  comparisons the code performs.
* Python dicts returned by the evaluators are modelled as Lean structures with
  one field per dict key (a key that is absent in one of the dict shapes the
  source can return becomes an `Option` field holding `none` in that shape).
* `re.search(p, s)` for the fixed regex family of the validator is modelled by
  a decidable existence check equivalent to "some match of `p` occurs in `s`".
-/

/-- The characters Python's no-argument `str.split()` treats as whitespace. -/
def pyIsSpace (c : Char) : Bool :=
  c = ' ' || c = '\t' || c = '\n' || c = '\r' || c = '\x0b' || c = '\x0c'

/-- Helper for `splitWs`; `acc` holds the characters of the current word in
reverse order. -/
def splitWsAux (acc : List Char) : List Char → List (List Char)
  | [] => if acc = [] then [] else [acc.reverse]
  | c :: cs =>
    if pyIsSpace c then
      if acc = [] then splitWsAux [] cs else acc.reverse :: splitWsAux [] cs
    else splitWsAux (c :: acc) cs

/-- Python `s.split()`: split on runs of whitespace, producing no empty
tokens. -/
def splitWs (cs : List Char) : List (List Char) := splitWsAux [] cs

/-- Python `s.lower()` (ASCII case mapping; all keyword matching in this code
is ASCII). -/
def lowerStr (cs : List Char) : List Char := cs.map Char.toLower

/-- All suffixes of a list, longest first; used to model substring search. -/
def suffixes : List Char → List (List Char)
  | [] => [[]]
  | c :: cs => (c :: cs) :: suffixes cs

/-- Python `pat in s` for strings: `pat` occurs as a contiguous substring of
`s` (true for the empty pattern, as in Python). -/
def containsSub (pat s : List Char) : Bool :=
  (suffixes s).any (fun suf => List.isPrefixOf pat suf)

/-! ## `evaluators.py` -/

/-- Result dict of `evaluate_response_length`. -/
structure LengthResult where
  score : ℚ
  word_count : Nat
  status : String
  target_range : String
deriving DecidableEq, Repr

/-- `evaluate_response_length` (`src/backend/app/evaluators.py`, lines 12-51):
word-count banding with fixed thresholds. -/
def evaluate_response_length (response : String) : LengthResult :=
  let word_count := (splitWs response.data).length
  if 150 ≤ word_count ∧ word_count ≤ 250 then
    { score := 1, word_count := word_count, status := "optimal",
      target_range := "150-250 words" }
  else if 100 ≤ word_count ∧ word_count < 150 then
    { score := 4/5, word_count := word_count, status := "acceptable_short",
      target_range := "150-250 words" }
  else if 250 < word_count ∧ word_count ≤ 300 then
    { score := 4/5, word_count := word_count, status := "acceptable_long",
      target_range := "150-250 words" }
  else if word_count < 100 then
    { score := 1/2, word_count := word_count, status := "too_short",
      target_range := "150-250 words" }
  else
    { score := 1/2, word_count := word_count, status := "too_long",
      target_range := "150-250 words" }

/-- Result dict of `evaluate_empathy_compliance`; the inner `dimensions` dict
is flattened into the four Bool fields (keys `thinks`, `feels`, `sees`,
`says_does`). -/
structure EmpathyResult where
  score : ℚ
  dimensions_present : Nat
  thinks : Bool
  feels : Bool
  sees : Bool
  says_does : Bool
  status : String
deriving DecidableEq, Repr

/-- `evaluate_empathy_compliance` (`src/backend/app/evaluators.py`, lines
54-96): four keyword families, score by number of dimensions present.  The
unused optional `empathy_map` argument of the source does not influence the
result and is omitted. -/
def evaluate_empathy_compliance (response : String) : EmpathyResult :=
  let response_lower := lowerStr response.data
  let thinks := ["think", "believe", "consider", "assess"].any
    (fun w => containsSub w.data response_lower)
  let feels := ["feel", "concern", "worry", "excited", "frustrated"].any
    (fun w => containsSub w.data response_lower)
  let sees := ["see", "notice", "observe", "experience"].any
    (fun w => containsSub w.data response_lower)
  let says_does := ["would", "need to", "should", "must", "will"].any
    (fun w => containsSub w.data response_lower)
  let dimensions_present :=
    (if thinks then 1 else 0) + (if feels then 1 else 0) +
      (if sees then 1 else 0) + (if says_does then 1 else 0)
  if 3 ≤ dimensions_present then
    { score := 1, dimensions_present := dimensions_present, thinks := thinks,
      feels := feels, sees := sees, says_does := says_does,
      status := "strong_empathy" }
  else if dimensions_present = 2 then
    { score := 4/5, dimensions_present := dimensions_present, thinks := thinks,
      feels := feels, sees := sees, says_does := says_does,
      status := "moderate_empathy" }
  else if dimensions_present = 1 then
    { score := 3/5, dimensions_present := dimensions_present, thinks := thinks,
      feels := feels, sees := sees, says_does := says_does,
      status := "weak_empathy" }
  else
    { score := 2/5, dimensions_present := dimensions_present, thinks := thinks,
      feels := feels, sees := sees, says_does := says_does,
      status := "no_empathy_markers" }

/-- Result dict of `evaluate_role_consistency`.  The unknown-role branch of the
source returns a dict without the `total_keywords` and `match_ratio` keys;
those two fields are therefore `Option`s, `none` exactly in that branch.
`matched` models the source key `matches`, and `match_fraction` the source
key `match_ratio` (both renamed because Lean reserves those spellings). -/
structure RoleResult where
  score : ℚ
  status : String
  matched : Nat
  total_keywords : Option Nat
  match_fraction : Option ℚ
deriving DecidableEq, Repr

/-- The fixed `role_keywords` taxonomy of `evaluate_role_consistency`, in
source (insertion) order. -/
def role_keywords : List (String × List String) :=
  [("trading", ["trading", "trader", "market", "provider", "uptime", "sla"]),
   ("product", ["product", "user", "feature", "ux", "experience", "interface"]),
   ("analyst", ["data", "analysis", "metrics", "kpi", "report", "insight"]),
   ("risk", ["risk", "compliance", "margin", "liability", "exposure"]),
   ("commercial", ["roi", "revenue", "cost", "business", "strategy", "value"]),
   ("support", ["customer", "support", "incident", "ticket", "response"])]

/-- `evaluate_role_consistency` (`src/backend/app/evaluators.py`, lines
99-163).  The unused optional `persona_data` argument of the source does not
influence the result and is omitted. -/
def evaluate_role_consistency (response persona_role : String) : RoleResult :=
  let response_lower := lowerStr response.data
  let role_lower := lowerStr persona_role.data
  let relevant_keywords : List String :=
    role_keywords.foldl
      (fun acc ck => if containsSub ck.1.data role_lower then acc ++ ck.2 else acc) []
  let matched := relevant_keywords.countP (fun k => containsSub k.data response_lower)
  if relevant_keywords = [] then
    { score := 7/10, status := "unknown_role", matched := 0,
      total_keywords := none, match_fraction := none }
  else
    -- Python `matches / len(relevant_keywords)` (true division of ints) is the
    -- exact rational `mkRat matched relevant_keywords.length`; the float
    -- thresholds 0.3/0.2/0.1 compare identically to the exact rationals at
    -- every ratio with these small denominators.
    let ratio : ℚ := mkRat (matched : Int) relevant_keywords.length
    if mkRat 3 10 ≤ ratio then
      { score := 1, status := "strong_consistency", matched := matched,
        total_keywords := some relevant_keywords.length, match_fraction := some ratio }
    else if mkRat 2 10 ≤ ratio then
      { score := 4/5, status := "good_consistency", matched := matched,
        total_keywords := some relevant_keywords.length, match_fraction := some ratio }
    else if mkRat 1 10 ≤ ratio then
      { score := 3/5, status := "moderate_consistency", matched := matched,
        total_keywords := some relevant_keywords.length, match_fraction := some ratio }
    else
      { score := 2/5, status := "weak_consistency", matched := matched,
        total_keywords := some relevant_keywords.length, match_fraction := some ratio }

/-- Result dict of `evaluate_specificity`. -/
structure SpecificityResult where
  score : ℚ
  specificity_count : Nat
  indicators : List Bool
  status : String
deriving DecidableEq, Repr

/-- `evaluate_specificity` (`src/backend/app/evaluators.py`, lines 166-213):
five boolean concreteness indicators, score by how many hold. -/
def evaluate_specificity (response : String) : SpecificityResult :=
  let response_lower := lowerStr response.data
  let ind1 := response.data.any (fun c => c.isDigit)
  let ind2 := containsSub " for example".data response_lower ||
    containsSub " e.g.".data response_lower || containsSub " such as".data response_lower
  let ind3 := (splitWs response.data).any (fun w =>
    match w with
    | [] => false
    | c :: _ => c.isUpper && !(["I", "The", "A", "An"].any (fun e => e.data = w)))
  let ind4 := ["yesterday", "last week", "last month", "recently", "currently"].any
    (fun w => containsSub w.data response_lower)
  let ind5 := response.data.contains '"' || response.data.contains '\x27'
  let indicators := [ind1, ind2, ind3, ind4, ind5]
  let specificity_count := indicators.countP (fun b => b)
  if 3 ≤ specificity_count then
    { score := 1, specificity_count := specificity_count,
      indicators := indicators, status := "highly_specific" }
  else if specificity_count = 2 then
    { score := 4/5, specificity_count := specificity_count,
      indicators := indicators, status := "moderately_specific" }
  else if specificity_count = 1 then
    { score := 3/5, specificity_count := specificity_count,
      indicators := indicators, status := "somewhat_specific" }
  else
    { score := 2/5, specificity_count := specificity_count,
      indicators := indicators, status := "generic" }

/-! ## `response_validator.py` -/

/-- `ResponseValidator.min_word_count`. -/
def min_word_count : Nat := 150

/-- `ResponseValidator.max_word_count`. -/
def max_word_count : Nat := 250

/-- `ResponseValidator.target_word_count`. -/
def target_word_count : Nat := 200

/-- `ResponseValidator.min_quality_score`. -/
def min_quality_score : ℚ := 75

/-- The two persona-profile fields `validate_response_quality` consumes,
plus the two extra values `get_improvement_suggestions` interpolates into
suggestion text.  `domain_terms` models
`persona_data["domain_expertise"]["terms_used_frequently"]` (empty when the
keys are absent), `typical_phrases` models
`persona_data["communication_style"]["typical_phrases"]`, and `budget_total` /
`team_size` hold the rendered text of `persona_data["budget"]["total"]` and
`persona_data["team"]["size"]` (`none` when absent, which Python renders as
the string None). -/
structure PersonaData where
  domain_terms : List String
  typical_phrases : List String
  budget_total : Option String
  team_size : Option String
deriving DecidableEq, Repr

/-- Python `round(q, 1)`.  Python rounds half to even on the binary float; at
every value this code can produce (denominators 1, 3 and 17 after scaling) the
true value is never at, nor within float distance of, a tie, so round half up
on the exact rational coincides with the source. -/
def roundTo1 (q : ℚ) : ℚ := (⌊q * 10 + 1/2⌋ : ℚ) / 10

/-- Python `round(q, 3)` (same remark as for `roundTo1`). -/
def roundTo3 (q : ℚ) : ℚ := (⌊q * 1000 + 1/2⌋ : ℚ) / 1000

/-- A digit or comma, the character class `[\d,]` of the currency regex. -/
def digitOrComma (c : Char) : Bool := c.isDigit || c = ','

/-- `re.search(r"\$[\d,]+K?", s)` finds a match iff some `$` is immediately
followed by at least one digit-or-comma (the `K?` and any further `[\d,]`
characters are optional and cannot affect existence of a match). -/
def moneyAt : List Char → Bool
  | '$' :: c :: _ => digitOrComma c
  | _ => false

/-- `re.search(r"\d+%", s)` finds a match iff some digit is immediately
followed by `%`. -/
def percentAt : List Char → Bool
  | c :: '%' :: _ => c.isDigit
  | _ => false

/-- `re.search(r"\d+ (w1|w2|...)", s, IGNORECASE)` for literal-word
alternatives finds a match iff some digit is followed by a space and then one
of the alternatives, case-insensitively.  Optional plural `s?` endings in the
source patterns are dropped from `ws` since they cannot affect existence. -/
def wordAfterNumAt (ws : List String) : List Char → Bool
  | c :: ' ' :: rest =>
    c.isDigit && ws.any (fun w => List.isPrefixOf w.data (lowerStr rest))
  | _ => false

/-- `has_numbers` of `validate_response_quality`
(`src/backend/app/response_validator.py`, lines 50-62): any of the five
`number_patterns` regexes matches somewhere in the response. -/
def has_specific_numbers_check (response : String) : Bool :=
  (suffixes response.data).any moneyAt ||
  (suffixes response.data).any percentAt ||
  (suffixes response.data).any
    (wordAfterNumAt ["people", "person", "traders", "employees"]) ||
  (suffixes response.data).any (wordAfterNumAt ["year", "month", "week", "day"]) ||
  (suffixes response.data).any (wordAfterNumAt ["minute", "hour"])

/-- The fixed global `constraint_keywords` list of `validate_response_quality`. -/
def constraint_keywords : List String :=
  ["budget", "approval", "cfo", "team", "goal", "constraint", "limit",
   "require", "need to justify"]

/-- The `checks` dict built by `validate_response_quality`; `uses_domain_terms`
and `uses_typical_phrases` are `Option Bool` because the source stores `None`
there when the profile carries no data for the check. -/
structure QualityChecks where
  word_count_in_range : Bool
  word_count_optimal : Bool
  has_specific_numbers : Bool
  uses_domain_terms : Option Bool
  domain_terms_count : Nat
  mentions_constraints : Bool
  uses_typical_phrases : Option Bool
  phrases_count : Nat
deriving DecidableEq, Repr

/-- `len(response.split())`, the word count used throughout the validator. -/
def word_count_of (response : String) : Nat := (splitWs response.data).length

/-- `terms_found` of check 3: how many profile domain terms occur
(case-insensitively) in the response. -/
def terms_found_of (response : String) (persona_data : PersonaData) : Nat :=
  persona_data.domain_terms.countP
    (fun t => containsSub (lowerStr t.data) (lowerStr response.data))

/-- `phrases_found` of check 5: how many typical phrases occur
(case-insensitively) in the response. -/
def phrases_found_of (response : String) (persona_data : PersonaData) : Nat :=
  persona_data.typical_phrases.countP
    (fun p => containsSub (lowerStr p.data) (lowerStr response.data))

/-- Checks 1-5 of `validate_response_quality`
(`src/backend/app/response_validator.py`, lines 43-100). -/
def qualityChecksOf (response : String) (persona_data : PersonaData) : QualityChecks :=
  { word_count_in_range :=
      decide (min_word_count ≤ word_count_of response ∧
        word_count_of response ≤ max_word_count)
    word_count_optimal :=
      decide (((word_count_of response : Int) - (target_word_count : Int)).natAbs ≤ 25)
    has_specific_numbers := has_specific_numbers_check response
    uses_domain_terms :=
      if persona_data.domain_terms = [] then none
      else some (decide (2 ≤ terms_found_of response persona_data))
    domain_terms_count :=
      if persona_data.domain_terms = [] then 0
      else terms_found_of response persona_data
    mentions_constraints :=
      constraint_keywords.any (fun k => containsSub k.data (lowerStr response.data))
    uses_typical_phrases :=
      if persona_data.typical_phrases = [] then none
      else some (decide (1 ≤ phrases_found_of response persona_data))
    phrases_count :=
      if persona_data.typical_phrases = [] then 0
      else phrases_found_of response persona_data }

/-- The `score_components` dict (`response_validator.py`, lines 102-110);
a `None` stored in `checks` earns 0 points like `False` (Python truthiness). -/
def score_breakdown_of (c : QualityChecks) : List (String × Nat) :=
  [("word_count_in_range", if c.word_count_in_range then 15 else 0),
   ("word_count_optimal", if c.word_count_optimal then 5 else 0),
   ("has_specific_numbers", if c.has_specific_numbers then 20 else 0),
   ("uses_domain_terms", if c.uses_domain_terms = some true then 25 else 0),
   ("mentions_constraints", if c.mentions_constraints then 20 else 0),
   ("uses_typical_phrases", if c.uses_typical_phrases = some true then 15 else 0)]

/-- `total_possible` (`response_validator.py`, lines 112-117): 100 minus 25
when the domain-term check is inapplicable, minus 15 when the typical-phrase
check is inapplicable. -/
def total_possible_of (c : QualityChecks) : Nat :=
  100 - (if c.uses_domain_terms = none then 25 else 0) -
    (if c.uses_typical_phrases = none then 15 else 0)

/-- `total_score = sum(score_components.values())`. -/
def total_score_of (c : QualityChecks) : Nat :=
  ((score_breakdown_of c).map (fun kv => kv.2)).sum

/-- `score` (`response_validator.py`, lines 119-124): normalized to 0-100 when
some checks were inapplicable. -/
def quality_score_of (c : QualityChecks) : ℚ :=
  if total_possible_of c < 100 then
    if 0 < total_possible_of c then
      (total_score_of c : ℚ) / (total_possible_of c : ℚ) * 100
    else 0
  else (total_score_of c : ℚ)

/-- The `issues` list (`response_validator.py`, lines 126-144), in source
order. -/
def issues_of (word_count : Nat) (c : QualityChecks) : List String :=
  (if !c.word_count_in_range then
    [if word_count < min_word_count then
      "Too short (" ++ toString word_count ++ " words, need " ++
        toString min_word_count ++ "+)"
    else
      "Too long (" ++ toString word_count ++ " words, max " ++
        toString max_word_count ++ ")"]
  else []) ++
  (if !c.has_specific_numbers then
    ["Missing specific numbers (budget, team size, metrics)"]
  else []) ++
  (if c.uses_domain_terms = some false then
    ["Only " ++ toString c.domain_terms_count ++ " domain terms (need 2+)"]
  else []) ++
  (if !c.mentions_constraints then
    ["Doesn\x27t reference constraints (budget, approval, goals)"]
  else []) ++
  (if c.uses_typical_phrases = some false then
    ["Only " ++ toString c.phrases_count ++ " typical phrases (need 1+)"]
  else [])

/-- The result dict of `validate_response_quality`.  `score` holds the rounded
value the source returns; `passed` is computed from the unrounded score, as in
the source. -/
structure QualityReport where
  passed : Bool
  score : ℚ
  checks : QualityChecks
  issues : List String
  word_count : Nat
  score_breakdown : List (String × Nat)
deriving DecidableEq, Repr

/-- `ResponseValidator.validate_response_quality`
(`src/backend/app/response_validator.py`, lines 23-166). -/
def validate_response_quality (response : String) (persona_data : PersonaData) :
    QualityReport :=
  let c := qualityChecksOf response persona_data
  { passed := decide (min_quality_score ≤ quality_score_of c)
    score := roundTo1 (quality_score_of c)
    checks := c
    issues := issues_of (word_count_of response) c
    word_count := word_count_of response
    score_breakdown := score_breakdown_of c }

/-- The fixed `stop_words` set of `_calculate_text_similarity`
(`src/backend/app/response_validator.py`, lines 235-283). -/
def stop_words : List String :=
  ["the", "a", "an", "and", "or", "but", "in", "on", "at", "to", "for", "of",
   "with", "by", "from", "as", "is", "was", "are", "were", "be", "been",
   "being", "have", "has", "had", "do", "does", "did", "will", "would",
   "could", "should", "may", "might", "can", "this", "that", "these", "those",
   "i", "you", "he", "she", "it", "we", "they"]

/-- `set(text.lower().split()) - stop_words`: the filtered word set of one
text, as a `Finset` of character lists. -/
def similarity_words (text : String) : Finset (List Char) :=
  (splitWs (lowerStr text.data)).toFinset \ (stop_words.map String.data).toFinset

/-- `ResponseValidator._calculate_text_similarity`
(`src/backend/app/response_validator.py`, lines 219-295): Jaccard similarity
of the stop-word-filtered word sets, 0.0 when either set is empty. -/
def calculate_text_similarity (text1 text2 : String) : ℚ :=
  let words1 := similarity_words text1
  let words2 := similarity_words text2
  if words1 = ∅ ∨ words2 = ∅ then 0
  else
    -- Python `intersection / union` (true division of ints) is the exact
    -- rational `mkRat intersection union`.
    let intersection := (words1 ∩ words2).card
    let union := (words1 ∪ words2).card
    if 0 < union then mkRat (intersection : Int) union else 0

/-- Python `max(xs)` for a list known to be evaluated only when nonempty; the
source guards it with `if similarities else 0.0`, modelled by the `[]` case. -/
def pyMax : List ℚ → ℚ
  | [] => 0
  | x :: xs => xs.foldl max x

/-- The result dict of `calculate_uniqueness_score`. -/
structure UniquenessReport where
  is_unique : Bool
  uniqueness_score : ℚ
  most_similar_score : ℚ
  similarities : List ℚ
deriving DecidableEq, Repr

/-- `ResponseValidator.calculate_uniqueness_score`
(`src/backend/app/response_validator.py`, lines 168-217). -/
def calculate_uniqueness_score (response : String) (other_responses : List String)
    (threshold : ℚ) : UniquenessReport :=
  match other_responses with
  | [] =>
    { is_unique := true, uniqueness_score := 1, most_similar_score := 0,
      similarities := [] }
  | _ :: _ =>
    let similarities :=
      other_responses.map (fun other => calculate_text_similarity response other)
    let most_similar := pyMax similarities
    let uniqueness_score := 1 - most_similar
    { is_unique := decide (most_similar < threshold)
      uniqueness_score := roundTo3 uniqueness_score
      most_similar_score := roundTo3 most_similar
      similarities := similarities.map roundTo3 }

/-- Render an optional profile value the way a Python f-string renders the
result of `dict.get(key)`: the value itself, or the text None when absent. -/
def pyShowOpt : Option String → String
  | none => "None"
  | some s => s

/-- `ResponseValidator.get_improvement_suggestions`
(`src/backend/app/response_validator.py`, lines 297-360), in source order. -/
def get_improvement_suggestions (validation_result : QualityReport)
    (persona_data : PersonaData) : List String :=
  (if validation_result.word_count < min_word_count then
    ["Add more detail: expand on constraints, decision criteria, or experience. Need " ++
      toString (min_word_count - validation_result.word_count) ++ " more words."]
  else if max_word_count < validation_result.word_count then
    ["Be more concise: remove least critical details. Cut " ++
      toString (validation_result.word_count - max_word_count) ++ " words."]
  else []) ++
  (if !validation_result.checks.has_specific_numbers then
    ["Add specific numbers: mention budget ($" ++
      pyShowOpt persona_data.budget_total ++ "), team size (" ++
      pyShowOpt persona_data.team_size ++ "), or metrics tracked."]
  else []) ++
  (match validation_result.checks.uses_domain_terms, persona_data.domain_terms with
  | some false, t :: ts =>
    ["Use role-specific terms: include at least 2 from " ++
      String.intercalate ", " ((t :: ts).take 5) ++ "."]
  | _, _ => []) ++
  (if !validation_result.checks.mentions_constraints then
    ["Reference constraints: mention budget limits, approval processes, team capacity, or current goals."]
  else []) ++
  (match validation_result.checks.uses_typical_phrases, persona_data.typical_phrases with
  | some false, p :: _ =>
    ["Use typical phrases: incorporate phrases like \x27" ++ p ++
      "\x27 to sound more authentic."]
  | _, _ => [])

/-- The combined dict returned by the module-level `validate_persona_response`;
`uniqueness` is `none` when no sibling responses were supplied. -/
structure CombinedResult where
  quality : QualityReport
  uniqueness : Option UniquenessReport
  suggestions : List String
  overall_passed : Bool
deriving DecidableEq, Repr

/-- `validate_persona_response` (`src/backend/app/response_validator.py`,
lines 363-395).  The Python parameter `other_responses: List[str] = None` is an
`Option (List String)`; `if other_responses:` is true exactly for
`some` of a nonempty list. -/
def validate_persona_response (response : String) (persona_data : PersonaData)
    (other_responses : Option (List String)) : CombinedResult :=
  let quality := validate_response_quality response persona_data
  let uniqueness : Option UniquenessReport :=
    match other_responses with
    | some (x :: xs) => some (calculate_uniqueness_score response (x :: xs) (7/10))
    | _ => none
  { quality := quality
    uniqueness := uniqueness
    suggestions := get_improvement_suggestions quality persona_data
    overall_passed :=
      quality.passed &&
        (match uniqueness with
        | some u => u.is_unique
        | none => true) }

/-! ## Dynamic profile model

`validate_response_quality` receives `persona_data: Dict[str, Any]` and reads
it with `.get(...)` chains and `term.lower()` calls, with no `try`/`except`
anywhere in the function (or module).  To reason about what happens when a
sub-check raises, the profile accesses are modelled over dynamically typed
Python values in an `Except` monad; the pure text computations, which cannot
raise on a string response, are delegated to the total model above. -/

/-- A dynamically typed Python value (the fragment the validator touches). -/
inductive PyVal where
  | pstr (s : String)
  | pint (n : Int)
  | plist (xs : List PyVal)
  | pdict (kvs : List (String × PyVal))
  | pnone

/-- Python `v.get(key, default)`: succeeds on dicts, raises `AttributeError`
on anything else (ints, lists, strings and `None` have no `get`). -/
def pyDictGet (v : PyVal) (key : String) (dflt : PyVal) : Except String PyVal :=
  match v with
  | .pdict kvs =>
    .ok (match kvs.find? (fun kv => kv.1 = key) with
      | some kv => kv.2
      | none => dflt)
  | _ => .error "AttributeError"

/-- Python truthiness for the values above (`if domain_terms:`). -/
def pyTruthy : PyVal → Bool
  | .pstr s => !(s.data = [])
  | .pint n => !(n = 0)
  | .plist xs => !xs.isEmpty
  | .pdict kvs => !kvs.isEmpty
  | .pnone => false

/-- Python iteration `for term in v`: lists yield their items, strings their
characters (as one-character strings), dicts their keys; ints and `None`
raise `TypeError`. -/
def pyIter : PyVal → Except String (List PyVal)
  | .plist xs => .ok xs
  | .pstr s => .ok (s.data.map (fun ch => .pstr (String.mk [ch])))
  | .pdict kvs => .ok (kvs.map (fun kv => .pstr kv.1))
  | .pint _ => .error "TypeError"
  | .pnone => .error "TypeError"

/-- Python `term.lower() ...` applied to a dynamic value: only strings have
`lower`; the string itself is returned (the total model re-lowers it). -/
def pyAsStr : PyVal → Except String String
  | .pstr s => .ok s
  | _ => .error "AttributeError"

/-- Effectful map over a list, failing on the first error (the order in which
`sum(1 for term in domain_terms if term.lower() ...)` touches the items). -/
def mapExcept (f : PyVal → Except String String) :
    List PyVal → Except String (List String)
  | [] => .ok []
  | v :: vs =>
    match f v with
    | .error e => .error e
    | .ok s =>
      match mapExcept f vs with
      | .error e => .error e
      | .ok ss => .ok (s :: ss)

/-- The list of strings a truthy profile entry yields when the source iterates
it calling `.lower()` on each item; falsy entries are never iterated (the
source takes the `checks[...] = None` branch) and contribute the empty list. -/
def extractStrings (v : PyVal) : Except String (List String) :=
  if pyTruthy v then
    match pyIter v with
    | .error e => .error e
    | .ok items => mapExcept pyAsStr items
  else .ok []

/-- `validate_response_quality` on a dynamically typed profile: the two
`.get(...).get(...)` chains and the two iterations are performed exactly where
the source performs them and propagate any exception (there is no handler in
the source); when they all succeed the report is the one computed by the total
model on the extracted profile. -/
def validate_response_quality_dyn (response : String) (persona_data : PyVal) :
    Except String QualityReport :=
  match pyDictGet persona_data "domain_expertise" (.pdict []) with
  | .error e => .error e
  | .ok de =>
    match pyDictGet de "terms_used_frequently" (.plist []) with
    | .error e => .error e
    | .ok dtv =>
      match extractStrings dtv with
      | .error e => .error e
      | .ok dts =>
        match pyDictGet persona_data "communication_style" (.pdict []) with
        | .error e => .error e
        | .ok cs =>
          match pyDictGet cs "typical_phrases" (.plist []) with
          | .error e => .error e
          | .ok tpv =>
            match extractStrings tpv with
            | .error e => .error e
            | .ok tps =>
              .ok (validate_response_quality response
                (PersonaData.mk dts tps none none))

/-- A profile dict whose optional fields are well-formed lists of strings,
encoded as the dynamic value the Python caller would pass. -/
def encodeWellFormedProfile (dts tps : List String) : PyVal :=
  .pdict
    [("domain_expertise",
      .pdict [("terms_used_frequently", .plist (dts.map .pstr))]),
     ("communication_style",
      .pdict [("typical_phrases", .plist (tps.map .pstr))])]

/-! ## Specification-side definitions

These restate banding tables in the words of the specification, to be compared
with the source-derived definitions above. -/

/-- The word-count banding table of spec §4.1, written from the spec's
inclusive bands. -/
def length_band_spec (wc : Nat) : ℚ × String :=
  if 150 ≤ wc ∧ wc ≤ 250 then (1, "optimal")
  else if 100 ≤ wc ∧ wc ≤ 149 then (4/5, "acceptable_short")
  else if 251 ≤ wc ∧ wc ≤ 300 then (4/5, "acceptable_long")
  else if wc < 100 then (1/2, "too_short")
  else (1/2, "too_long")

/-- The empathy score mapping of spec §4.2 by count of true dimensions:
3 or more map to the same strong bucket. -/
def empathy_band (n : Nat) : ℚ × String :=
  if 3 ≤ n then (1, "strong_empathy")
  else if n = 2 then (4/5, "moderate_empathy")
  else if n = 1 then (3/5, "weak_empathy")
  else (2/5, "no_empathy_markers")

/-- The match-ratio banding of spec §4.3. -/
def ratio_band_spec (q : ℚ) : ℚ × String :=
  if 3/10 ≤ q then (1, "strong_consistency")
  else if 2/10 ≤ q then (4/5, "good_consistency")
  else if 1/10 ≤ q then (3/5, "moderate_consistency")
  else (2/5, "weak_consistency")

/-- A concrete response of `n` whitespace-separated one-letter words. -/
def mkWords : Nat → List Char
  | 0 => []
  | n + 1 => 'a' :: ' ' :: mkWords n

/-! ## Helper lemmas -/

/-- Every character of a word produced by `splitWsAux acc cs` comes from the
accumulator or from the input. -/
theorem splitWsAux_mem (cs : List Char) :
    ∀ (acc w : List Char), w ∈ splitWsAux acc cs → ∀ c ∈ w, c ∈ acc ∨ c ∈ cs := by
  induction cs with
  | nil =>
    intro acc w hw c hc
    by_cases hacc : acc = []
    · simp [splitWsAux, hacc] at hw
    · simp [splitWsAux, hacc] at hw
      subst hw
      exact Or.inl (List.mem_reverse.mp hc)
  | cons d ds ih =>
    intro acc w hw c hc
    by_cases hsp : pyIsSpace d
    · by_cases hacc : acc = []
      · simp [splitWsAux, hsp, hacc] at hw
        rcases ih [] w hw c hc with h | h
        · exact absurd h (List.not_mem_nil c)
        · exact Or.inr (List.mem_cons_of_mem d h)
      · simp [splitWsAux, hsp, hacc] at hw
        rcases hw with hw | hw
        · subst hw
          exact Or.inl (List.mem_reverse.mp hc)
        · rcases ih [] w hw c hc with h | h
          · exact absurd h (List.not_mem_nil c)
          · exact Or.inr (List.mem_cons_of_mem d h)
    · simp [splitWsAux, hsp] at hw
      rcases ih (d :: acc) w hw c hc with h | h
      · rcases List.mem_cons.mp h with h | h
        · exact Or.inr (h ▸ List.mem_cons_self d ds)
        · exact Or.inl h
      · exact Or.inr (List.mem_cons_of_mem d h)

/-- Every character of a word of `splitWs cs` is a character of `cs`. -/
theorem mem_splitWs (cs w : List Char) (hw : w ∈ splitWs cs) :
    ∀ c ∈ w, c ∈ cs := by
  intro c hc
  rcases splitWsAux_mem cs [] w hw c hc with h | h
  · exact absurd h (List.not_mem_nil c)
  · exact h

/-- The earned points never exceed the applicable total: an inapplicable check
earns 0 and is excluded from the denominator. -/
theorem total_score_le_total_possible (c : QualityChecks) :
    total_score_of c ≤ total_possible_of c := by
  obtain ⟨w1, w2, hn, ud, dc, mc, ut, pc⟩ := c
  rcases ud with _ | b <;> rcases ut with _ | b2 <;>
    simp [total_score_of, score_breakdown_of, total_possible_of] <;>
    split_ifs <;> simp_all

/-- The applicable total is always at least 60. -/
theorem sixty_le_total_possible (c : QualityChecks) :
    60 ≤ total_possible_of c := by
  simp only [total_possible_of]
  split_ifs <;> omega

/-- Mapping `pyAsStr` over encoded strings recovers them. -/
theorem mapExcept_pstr (l : List String) :
    mapExcept pyAsStr (l.map PyVal.pstr) = Except.ok l := by
  induction l with
  | nil => rfl
  | cons s ss ih =>
    show (match pyAsStr (PyVal.pstr s) with
      | .error e => .error e
      | .ok s2 =>
        match mapExcept pyAsStr (ss.map PyVal.pstr) with
        | .error e => .error e
        | .ok ss2 => Except.ok (s2 :: ss2)) = Except.ok (s :: ss)
    rw [ih]
    rfl

/-- Extracting a well-formed (list-of-strings) profile entry succeeds and
yields exactly that list. -/
theorem extractStrings_pstr (l : List String) :
    extractStrings (PyVal.plist (l.map PyVal.pstr)) = Except.ok l := by
  cases l with
  | nil => rfl
  | cons s ss =>
    simp only [extractStrings, pyTruthy, pyIter, List.map_cons, List.isEmpty_cons,
      Bool.not_false, if_pos]
    exact mapExcept_pstr (s :: ss)

/-- Claim C2: for every response string, `evaluate_response_length` returns a
word count equal to the number of whitespace-split tokens and a score/status
pair determined solely by that count with the inclusive bands 150-250 optimal
(1.0), 100-149 acceptable_short (0.8), 251-300 acceptable_long (0.8), below
100 too_short (0.5), above 300 too_long (0.5); in particular the empty string
yields word count 0, too_short, 0.5. -/
theorem evaluate_length_banding (response : String) :
    (evaluate_response_length response).word_count = (splitWs response.data).length ∧
    ((evaluate_response_length response).score, (evaluate_response_length response).status)
      = length_band_spec ((splitWs response.data).length) ∧
    evaluate_response_length "" =
      { score := 1/2, word_count := 0, status := "too_short",
        target_range := "150-250 words" } := by
  refine ⟨?_, ?_, rfl⟩
  · simp only [evaluate_response_length]
    split_ifs <;> rfl
  · simp only [evaluate_response_length, length_band_spec]
    split_ifs <;> first | rfl | (exfalso; omega)

/-- Claim C8: for every response string and threshold,
`calculate_uniqueness_score` on an empty sibling-response list returns exactly
is_unique true, uniqueness score 1.0, most-similar score 0.0 and an empty
similarity list. -/
theorem uniqueness_empty_siblings (response : String) (threshold : ℚ) :
    calculate_uniqueness_score response [] threshold =
      { is_unique := true, uniqueness_score := 1, most_similar_score := 0,
        similarities := [] } := rfl

/-- Claim C10: the wrapper `validate_persona_response` returns overall_passed
true iff the quality report passed and, when a nonempty sibling list was
supplied, the uniqueness report is unique; for `None` or an empty list the
uniqueness field of the combined result is `none`, so the trivially-unique
empty-sibling report is never produced through this wrapper. -/
theorem persona_response_overall (response : String) (persona_data : PersonaData)
    (other_responses : Option (List String)) :
    (validate_persona_response response persona_data other_responses).overall_passed
      = ((validate_response_quality response persona_data).passed &&
        (match (validate_persona_response response persona_data other_responses).uniqueness with
          | some u => u.is_unique
          | none => true)) ∧
    (validate_persona_response response persona_data other_responses).uniqueness
      = (match other_responses with
        | some (x :: xs) => some (calculate_uniqueness_score response (x :: xs) (7/10))
        | _ => none) := by
  rcases other_responses with _ | l
  · exact ⟨rfl, rfl⟩
  · rcases l with _ | ⟨x, xs⟩
    · exact ⟨rfl, rfl⟩
    · exact ⟨rfl, rfl⟩

example : similarity_words "the a" = ∅ := by decide
example : (similarity_words "budget plan" ∩ similarity_words "budget").card = 1 := by decide
example : (evaluate_role_consistency "data analysis metrics" "Data Analyst").total_keywords = some 6 := by decide
example : (evaluate_role_consistency "data analysis metrics" "Data Analyst").matched = 3 := by decide

theorem empathy_dims (response : String) :
    (evaluate_empathy_compliance response).dimensions_present =
      (if ["think", "believe", "consider", "assess"].any
          (fun w => containsSub w.data (lowerStr response.data)) then 1 else 0) +
      (if ["feel", "concern", "worry", "excited", "frustrated"].any
          (fun w => containsSub w.data (lowerStr response.data)) then 1 else 0) +
      (if ["see", "notice", "observe", "experience"].any
          (fun w => containsSub w.data (lowerStr response.data)) then 1 else 0) +
      (if ["would", "need to", "should", "must", "will"].any
          (fun w => containsSub w.data (lowerStr response.data)) then 1 else 0) := by
  simp only [evaluate_empathy_compliance]
  split_ifs <;> rfl

theorem empathy_eq_band (response : String) :
    ((evaluate_empathy_compliance response).score,
      (evaluate_empathy_compliance response).status)
      = empathy_band (evaluate_empathy_compliance response).dimensions_present := by
  rw [empathy_dims]
  simp only [evaluate_empathy_compliance, empathy_band]
  split_ifs <;> rfl

theorem empathy_band_fst_monotone (n m : Nat) (h : n ≤ m) :
    (empathy_band n).1 ≤ (empathy_band m).1 := by
  simp only [empathy_band]
  split_ifs <;> first | (exfalso; omega) | norm_num

/-- Claim C7: the score of `evaluate_empathy_compliance` is a monotonically
non-decreasing function of `dimensions_present`, following the mapping
3 or more to 1.0 strong_empathy, 2 to 0.8 moderate_empathy, 1 to 0.6
weak_empathy, 0 to 0.4 no_empathy_markers, with counts 3 and 4 deliberately
landing in the same bucket. -/
theorem empathy_band_monotone :
    (∀ response : String,
      ((evaluate_empathy_compliance response).score,
        (evaluate_empathy_compliance response).status)
        = empathy_band (evaluate_empathy_compliance response).dimensions_present) ∧
    (∀ r1 r2 : String,
      (evaluate_empathy_compliance r1).dimensions_present ≤
          (evaluate_empathy_compliance r2).dimensions_present →
        (evaluate_empathy_compliance r1).score ≤ (evaluate_empathy_compliance r2).score) ∧
    empathy_band 3 = empathy_band 4 := by
  refine ⟨empathy_eq_band, ?_, rfl⟩
  intro r1 r2 h
  have h1 := congrArg Prod.fst (empathy_eq_band r1)
  have h2 := congrArg Prod.fst (empathy_eq_band r2)
  simp only at h1 h2
  rw [h1, h2]
  exact empathy_band_fst_monotone _ _ h

theorem empathy_band_monotone_witness :
    (evaluate_empathy_compliance "nothing here").score ≤
      (evaluate_empathy_compliance "i think we should go").score :=
  empathy_band_monotone.2.1 "nothing here" "i think we should go" (by decide)

/-- Claim C5: for every response and role string in which none of the six
fixed category names occurs as a substring of the lower-cased role,
`evaluate_role_consistency` returns score exactly 0.7 and status unknown_role
regardless of the response; otherwise the stored `match_ratio` equals
matches divided by the number of relevant keywords and the score/status are
its banding at 0.3 / 0.2 / 0.1. -/
theorem role_consistency_banding (response persona_role : String) :
    ((["trading", "product", "analyst", "risk", "commercial", "support"].all
        (fun cat => !containsSub cat.data (lowerStr persona_role.data))) = true →
      evaluate_role_consistency response persona_role =
        { score := 7/10, status := "unknown_role", matched := 0,
          total_keywords := none, match_fraction := none }) ∧
    (∀ tk : Nat,
      (evaluate_role_consistency response persona_role).total_keywords = some tk →
      (evaluate_role_consistency response persona_role).match_fraction =
        some (((evaluate_role_consistency response persona_role).matched : ℚ) / (tk : ℚ))) ∧
    (∀ fr : ℚ,
      (evaluate_role_consistency response persona_role).match_fraction = some fr →
      ((evaluate_role_consistency response persona_role).score,
        (evaluate_role_consistency response persona_role).status) = ratio_band_spec fr) := by
  have e1 : (3 : ℚ)/10 = mkRat 3 10 := by rw [Rat.mkRat_eq_div]; norm_num
  have e2 : (2 : ℚ)/10 = mkRat 2 10 := by rw [Rat.mkRat_eq_div]; norm_num
  have e3 : (1 : ℚ)/10 = mkRat 1 10 := by rw [Rat.mkRat_eq_div]; norm_num
  refine ⟨?_, ?_, ?_⟩
  · intro h
    simp only [List.all_cons, List.all_nil, Bool.and_true, Bool.and_eq_true,
      Bool.not_eq_true'] at h
    obtain ⟨h1, h2, h3, h4, h5, h6⟩ := h
    simp [evaluate_role_consistency, role_keywords, h1, h2, h3, h4, h5, h6]
  · intro tk htk
    simp only [evaluate_role_consistency] at htk ⊢
    split_ifs at htk ⊢ with h0 hb1 hb2 hb3
    all_goals simp_all [Rat.mkRat_eq_div]
  · intro fr hfr
    simp only [evaluate_role_consistency] at hfr ⊢
    split_ifs at hfr ⊢ with h0 hb1 hb2 hb3
    all_goals
      first
      | exact Option.noConfusion hfr
      | (simp only [Option.some.injEq] at hfr
         subst hfr
         simp only [ratio_band_spec, e1, e2, e3]
         split_ifs
         all_goals simp_all)

theorem role_consistency_banding_witness :
    evaluate_role_consistency "hello there" "chief executive" =
      { score := 7/10, status := "unknown_role", matched := 0,
        total_keywords := none, match_fraction := none } ∧
    (evaluate_role_consistency "data analysis metrics" "Data Analyst").match_fraction
      = some (((evaluate_role_consistency "data analysis metrics" "Data Analyst").matched : ℚ) / (6 : ℚ)) ∧
    ((evaluate_role_consistency "data analysis metrics" "Data Analyst").score,
      (evaluate_role_consistency "data analysis metrics" "Data Analyst").status)
      = ratio_band_spec (mkRat 3 6) := by
  refine ⟨(role_consistency_banding "hello there" "chief executive").1 (by decide),
    (role_consistency_banding "data analysis metrics" "Data Analyst").2.1 6 (by decide),
    ?_⟩
  have h := (role_consistency_banding "data analysis metrics" "Data Analyst").2.2
    (mkRat 3 6) (by decide)
  exact h

/-- Claim C4, counterexample: the claim asks for a response whose
word_count_optimal check is true while word_count_in_range is false, but the
optimal window 175-225 is a subset of the range 150-250, so no such response
exists; this refutes the claim as stated. -/
theorem optimal_outside_range_impossible :
    ¬ ∃ (response : String) (persona_data : PersonaData),
        (qualityChecksOf response persona_data).word_count_optimal = true ∧
        (qualityChecksOf response persona_data).word_count_in_range = false := by
  rintro ⟨response, persona_data, hopt, hrange⟩
  simp only [qualityChecksOf, min_word_count, max_word_count, target_word_count,
    decide_eq_true_eq, decide_eq_false_iff_not] at hopt hrange
  omega

/-- Claim C4, amended: the two word-count sub-checks are independently
evaluated in the only direction the code allows: a concrete 150-word response
has word_count_in_range true while word_count_optimal is false. -/
theorem word_count_checks_independent :
    word_count_of (String.mk (mkWords 150)) = 150 ∧
    (qualityChecksOf (String.mk (mkWords 150))
        (PersonaData.mk [] [] none none)).word_count_in_range = true ∧
    (qualityChecksOf (String.mk (mkWords 150))
        (PersonaData.mk [] [] none none)).word_count_optimal = false := by
  refine ⟨by decide, by decide, by decide⟩

/-- Claim C6, counterexample: the response "yesterday" consists only of
lowercase characters, has no digit and no quotation mark, yet its recency
indicator fires, so `evaluate_specificity` reports count 1 (score 0.6), not
the all-false/0.4/generic result the claim asserts. -/
theorem specificity_lowercase_cex :
    ("yesterday".data.all (fun c => !(c.isUpper || c.isDigit))) = true ∧
    "yesterday".data.contains '"' = false ∧
    "yesterday".data.contains '\x27' = false ∧
    (evaluate_specificity "yesterday").specificity_count = 1 ∧
    evaluate_specificity "yesterday" ≠
      { score := 2/5, specificity_count := 0,
        indicators := [false, false, false, false, false], status := "generic" } := by
  refine ⟨by decide, by decide, by decide, by decide, ?_⟩
  intro h
  have : (evaluate_specificity "yesterday").specificity_count = 0 := by rw [h]
  simp at this
  exact absurd this (by decide)

/-- Claim C6, amended: for a response with no uppercase character, no digit
and no quotation mark that additionally contains none of the exemplar-marker
substrings and none of the recency keywords (case-insensitively), all five
specificity indicators are false, giving count 0, score 0.4, status
generic. -/
theorem specificity_generic_amended (s : String)
    (hchar : s.data.all (fun c => !(c.isUpper || c.isDigit)) = true)
    (hq1 : s.data.contains '"' = false)
    (hq2 : s.data.contains '\x27' = false)
    (hex1 : containsSub " for example".data (lowerStr s.data) = false)
    (hex2 : containsSub " e.g.".data (lowerStr s.data) = false)
    (hex3 : containsSub " such as".data (lowerStr s.data) = false)
    (hrec : (["yesterday", "last week", "last month", "recently", "currently"].any
        (fun w => containsSub w.data (lowerStr s.data))) = false) :
    evaluate_specificity s =
      { score := 2/5, specificity_count := 0,
        indicators := [false, false, false, false, false], status := "generic" } := by
  simp only [List.all_eq_true, Bool.not_eq_true', Bool.or_eq_false_iff] at hchar
  have hdig : s.data.any (fun c => c.isDigit) = false := by
    simp only [List.any_eq_false]
    intro c hc
    simp [(hchar c hc).2]
  have hcap : (splitWs s.data).any (fun w =>
      match w with
      | [] => false
      | c :: _ => c.isUpper && !(["I", "The", "A", "An"].any (fun e => e.data = w))) = false := by
    simp only [List.any_eq_false]
    intro w hw
    cases w with
    | nil => simp
    | cons c cs =>
      have hc : c ∈ s.data := mem_splitWs s.data (c :: cs) hw c (List.mem_cons_self c cs)
      simp [(hchar c hc).1]
  simp only [evaluate_specificity, hdig, hcap, hex1, hex2, hex3, hrec, hq1, hq2]
  rfl

theorem specificity_generic_witness :
    evaluate_specificity "plain words about things" =
      { score := 2/5, specificity_count := 0,
        indicators := [false, false, false, false, false], status := "generic" } :=
  specificity_generic_amended "plain words about things" (by decide) (by decide)
    (by decide) (by decide) (by decide) (by decide) (by decide)

set_option maxHeartbeats 2000000 in
/-- Claim C9: the Jaccard text similarity is symmetric; it is 0.0 whenever
either filtered word set is empty, and otherwise equals intersection size
divided by union size of the two stop-word-filtered lower-cased word sets. -/
theorem text_similarity_symmetric (text1 text2 : String) :
    calculate_text_similarity text1 text2 = calculate_text_similarity text2 text1 ∧
    (similarity_words text1 = ∅ ∨ similarity_words text2 = ∅ →
      calculate_text_similarity text1 text2 = 0) ∧
    (similarity_words text1 ≠ ∅ → similarity_words text2 ≠ ∅ →
      calculate_text_similarity text1 text2 =
        ((similarity_words text1 ∩ similarity_words text2).card : ℚ) /
          ((similarity_words text1 ∪ similarity_words text2).card : ℚ)) := by
  refine ⟨?_, ?_, ?_⟩
  · have hI : similarity_words text1 ∩ similarity_words text2
        = similarity_words text2 ∩ similarity_words text1 := Finset.inter_comm _ _
    have hU : similarity_words text1 ∪ similarity_words text2
        = similarity_words text2 ∪ similarity_words text1 := Finset.union_comm _ _
    have hO : (similarity_words text1 = ∅ ∨ similarity_words text2 = ∅)
        = (similarity_words text2 = ∅ ∨ similarity_words text1 = ∅) := propext or_comm
    simp only [calculate_text_similarity, hI, hU, hO]
  · intro h
    simp only [calculate_text_similarity]
    rw [if_pos h]
  · intro h1 h2
    have hne : ¬(similarity_words text1 = ∅ ∨ similarity_words text2 = ∅) := by
      rintro (h | h) <;> simp_all
    have hcard : 0 < (similarity_words text1 ∪ similarity_words text2).card := by
      refine Finset.card_pos.mpr ?_
      exact (Finset.nonempty_iff_ne_empty.mpr h1).mono Finset.subset_union_left
    simp only [calculate_text_similarity]
    rw [if_neg hne, if_pos hcard, Rat.mkRat_eq_div]
    simp only [Int.cast_natCast]

theorem text_similarity_symmetric_witness :
    calculate_text_similarity "the a" "budget" = 0 ∧
    calculate_text_similarity "budget plan" "budget" = 1/2 := by
  constructor
  · exact (text_similarity_symmetric "the a" "budget").2.1 (Or.inl (by decide))
  · have h := (text_similarity_symmetric "budget plan" "budget").2.2
      (by decide) (by decide)
    rw [h]
    have hi : (similarity_words "budget plan" ∩ similarity_words "budget").card = 1 := by
      decide
    have hu : (similarity_words "budget plan" ∪ similarity_words "budget").card = 2 := by
      decide
    rw [hi, hu]
    norm_num

theorem total_possible_le_100 (c : QualityChecks) : total_possible_of c ≤ 100 := by
  simp only [total_possible_of]
  split_ifs <;> omega

/-- Claim C1: `validate_response_quality` computes the raw score as the sum
of the earned points (15 in-range, 5 optimal, 20 numbers, 25 domain terms,
20 constraints, 15 phrases), the total possible as 100 minus 25 when domain
terms are inapplicable and minus 15 when typical phrases are inapplicable,
the final score as raw/totalPossible*100 when totalPossible is below 100 and
raw otherwise, never exceeding 100 (so a cap at 100 never binds), and passed
iff the final score is at least 75. -/
theorem validate_quality_scoring (response : String) (persona_data : PersonaData) :
    total_score_of (qualityChecksOf response persona_data) =
      (if (qualityChecksOf response persona_data).word_count_in_range then 15 else 0) +
      (if (qualityChecksOf response persona_data).word_count_optimal then 5 else 0) +
      (if (qualityChecksOf response persona_data).has_specific_numbers then 20 else 0) +
      (if (qualityChecksOf response persona_data).uses_domain_terms = some true then 25 else 0) +
      (if (qualityChecksOf response persona_data).mentions_constraints then 20 else 0) +
      (if (qualityChecksOf response persona_data).uses_typical_phrases = some true then 15 else 0) ∧
    total_possible_of (qualityChecksOf response persona_data) =
      100 - (if persona_data.domain_terms = [] then 25 else 0) -
        (if persona_data.typical_phrases = [] then 15 else 0) ∧
    quality_score_of (qualityChecksOf response persona_data) =
      (if total_possible_of (qualityChecksOf response persona_data) < 100 then
        (total_score_of (qualityChecksOf response persona_data) : ℚ) /
            (total_possible_of (qualityChecksOf response persona_data) : ℚ) * 100
      else (total_score_of (qualityChecksOf response persona_data) : ℚ)) ∧
    quality_score_of (qualityChecksOf response persona_data) ≤ 100 ∧
    (validate_response_quality response persona_data).passed =
      decide (75 ≤ quality_score_of (qualityChecksOf response persona_data)) := by
  have hle := total_score_le_total_possible (qualityChecksOf response persona_data)
  have h60 := sixty_le_total_possible (qualityChecksOf response persona_data)
  have h100 := total_possible_le_100 (qualityChecksOf response persona_data)
  refine ⟨?_, ?_, ?_, ?_, ?_⟩
  · simp [total_score_of, score_breakdown_of]
    ring
  · by_cases hd : persona_data.domain_terms = [] <;>
      by_cases hp : persona_data.typical_phrases = [] <;>
      simp [total_possible_of, qualityChecksOf, hd, hp]
  · simp only [quality_score_of]
    split_ifs <;> first | rfl | (exfalso; omega)
  · simp only [quality_score_of]
    split_ifs with h1 h2
    · rw [div_mul_eq_mul_div, div_le_iff₀ (by exact_mod_cast h2)]
      have hc : (total_score_of (qualityChecksOf response persona_data) : ℚ) ≤
          (total_possible_of (qualityChecksOf response persona_data) : ℚ) := by
        exact_mod_cast hle
      linarith
    · exfalso; omega
    · have hts : total_score_of (qualityChecksOf response persona_data) ≤ 100 :=
        le_trans hle h100
      exact_mod_cast hts
  · rfl

/-- Claim C3, counterexample: `validate_response_quality` contains no
exception handler, so when the profile value under domain_expertise is not a
dict the AttributeError raised inside the domain-term sub-check propagates
and aborts the whole report instead of being treated as a neutral
sub-check result. -/
theorem validate_quality_dyn_uncaught :
    validate_response_quality_dyn "hello team"
        (PyVal.pdict [("domain_expertise", PyVal.pint 5)]) =
      Except.error "AttributeError" := rfl

/-- Claim C3, amended: for every response string and every profile whose
optional entries are lists of strings, `validate_response_quality` raises no
exception and returns the complete report of the total model; exceptions from
a sub-check are not caught at the aggregator boundary (see the
counterexample), so totality holds only on well-formed profiles. -/
theorem validate_quality_dyn_wellformed (response : String) (dts tps : List String) :
    validate_response_quality_dyn response (encodeWellFormedProfile dts tps) =
      Except.ok (validate_response_quality response (PersonaData.mk dts tps none none)) := by
  have h1 := extractStrings_pstr dts
  have h2 := extractStrings_pstr tps
  show (match extractStrings (PyVal.plist (dts.map PyVal.pstr)) with
    | .error e => Except.error e
    | .ok dts2 =>
      (match extractStrings (PyVal.plist (tps.map PyVal.pstr)) with
        | .error e => Except.error e
        | .ok tps2 =>
          Except.ok (validate_response_quality response
            (PersonaData.mk dts2 tps2 none none)))) =
    Except.ok (validate_response_quality response (PersonaData.mk dts tps none none))
  rw [h1, h2]
